import Mathlib

/-!
# Verification of the `ak-api-http` request pipeline

A shallow embedding of `src/core.ts` (class `Api`) and `src/types.ts`
(error taxonomy and configuration types) of the `ak-api-http` repository,
together with theorems settling the specification claims about it.

Modelling conventions:
* JavaScript objects used as ordered string-keyed maps (`services`, `headers`,
  search params) are embedded as association lists `List (String × α)` with
  JS-faithful update semantics (`jsSet`: overwrite in place, else append) and
  spread semantics (`jsSpread`).
* JS truthiness of optional booleans/strings is made explicit (`optTruthy`,
  `strTruthy`); `a || b` on strings/optionals is `jsOrS` / `jsOrO`.
* Promises/`async` are collapsed into explicit state passing: each operation
  returns its value together with the updated token-cache state and a record
  of observable collaborator invocations (`Effects`).
* The transport (axios engine) is an external collaborator: a function from
  the attempt index and the outgoing request config to a result.  Timing
  (`retryDelay`, `timeout` waits) is not modelled; the fields are kept as data.
* The user hooks `onRequest`/`onResponse` are modelled at their constructor
  defaults (identity); `Effects` counts every invocation the interceptor
  machinery would make.
* Bounded retry recursion is embedded with a fuel parameter; call sites pass
  `maxRetries + 1`, which the retry guard (`retryCount < maxRetries`) never
  exhausts, so the fuel-out branch is unreachable at every call site.
-/

namespace AkApiHttp

/-- Lookup in a JS-object-as-association-list: first binding of the key. -/
def jsGet {α : Type} (m : List (String × α)) (k : String) : Option α :=
  match m.find? (fun p => p.1 = k) with
  | some p => some p.2
  | none => none

/-- JS object property assignment: overwrite the existing binding in place
(keeping its position, as JS objects do), otherwise append at the end. -/
def jsSet {α : Type} (m : List (String × α)) (k : String) (v : α) : List (String × α) :=
  if m.any (fun p => p.1 = k) then m.map (fun p => if p.1 = k then (k, v) else p)
  else m ++ [(k, v)]

/-- JS object spread `\x7b...base, ...extra\x7d`: each binding of `extra`
is assigned over `base` in order. -/
def jsSpread {α : Type} (base extra : List (String × α)) : List (String × α) :=
  extra.foldl (fun acc p => jsSet acc p.1 p.2) base

/-- JS truthiness of an optional boolean (`undefined` is falsy). -/
def optTruthy : Option Bool → Bool
  | some b => b
  | none => false

/-- JS truthiness of a `string | null` value (`null` and `""` are falsy). -/
def strTruthy : Option String → Bool
  | some s => !s.isEmpty
  | none => false

/-- JS `a || b` where `a : string | undefined` and the result is a string:
the empty string and `undefined` fall through to `b`. -/
def jsOrS (a : Option String) (b : String) : String :=
  match a with
  | some s => if s = "" then b else s
  | none => b

/-- JS `a || b` on two optional strings (used for `code` fallbacks). -/
def jsOrO (a b : Option String) : Option String :=
  match a with
  | some s => if s = "" then b else some s
  | none => b

/-- `ServiceConfig` from `types.ts`: `\x7b url: string; enableAuth?: boolean \x7d`. -/
structure ServiceConfig where
  url : String
  enableAuth : Option Bool
deriving DecidableEq, Repr

/-- `SessionData` from `types.ts`; only `accessToken` is consumed by the core. -/
structure SessionData where
  accessToken : String
deriving DecidableEq, Repr

/-- Behaviour of the session provider collaborator when invoked:
it may reject (`throws`) or resolve with `SessionData | null`. -/
inductive SessionResult
  | throws
  | ok (session : Option SessionData)
deriving DecidableEq, Repr

/-- `ApiError` from `types.ts`: message, optional status/code/context, and the
runtime `name` field distinguishing the subtype. -/
structure ApiError where
  name : String
  message : String
  status : Option Nat
  code : Option String
  context : Option String
deriving DecidableEq, Repr

/-- `new ApiError(message)` with no status/code/context. -/
def mkApiError (message : String) : ApiError :=
  { name := "ApiError", message := message, status := none, code := none, context := none }

/-- `AuthenticationError` from `types.ts`: always
`super(message, 401, 'AUTHENTICATION_ERROR')` with name `AuthenticationError`. -/
def AuthenticationError (message : String) : ApiError :=
  { name := "AuthenticationError", message := message, status := some 401,
    code := some "AUTHENTICATION_ERROR", context := none }

/-- A value of `SearchParams` (`string | number | boolean | undefined`); `null`
is included because `buildUrl` tests for it at runtime.  Numbers are modelled
as integers (the only numerals the claims exercise). -/
inductive ParamValue
  | str (s : String)
  | num (n : Int)
  | bool (b : Bool)
  | null
  | undefined
deriving DecidableEq, Repr

/-- JS `String(value)` coercion on a search-parameter value. -/
def jsString : ParamValue → String
  | ParamValue.str s => s
  | ParamValue.num n => toString n
  | ParamValue.bool b => if b then "true" else "false"
  | ParamValue.null => "null"
  | ParamValue.undefined => "undefined"

/-- The filter of `buildUrl`:
`value !== undefined && value !== null && value !== ''`. -/
def keepParam : ParamValue → Bool
  | ParamValue.undefined => false
  | ParamValue.null => false
  | ParamValue.str s => !(s = "")
  | _ => true

/-- JS `String.prototype.trim()`: strip leading and trailing whitespace
(embedded structurally over the character list so that it evaluates). -/
def jsTrim (s : String) : String :=
  String.mk ((((s.toList).dropWhile Char.isWhitespace).reverse.dropWhile Char.isWhitespace).reverse)

/-- Upper-case hexadecimal digit. -/
def hexDigitChar (n : Nat) : Char :=
  if n < 10 then Char.ofNat (48 + n) else Char.ofNat (55 + n)

/-- `%XX` percent-encoding of one byte. -/
def percentEncodeByte (b : UInt8) : String :=
  String.mk ['%', hexDigitChar (b.toNat / 16), hexDigitChar (b.toNat % 16)]

/-- `application/x-www-form-urlencoded` encoding of one character, as
`URLSearchParams` serialization performs it. -/
def formEncodeChar (c : Char) : String :=
  if c.isAlphanum then String.singleton c
  else if c = '*' || c = '-' || c = '.' || c = '_' then String.singleton c
  else if c = ' ' then "+"
  else String.join (((String.singleton c).toUTF8.toList).map percentEncodeByte)

/-- `application/x-www-form-urlencoded` encoding of a string. -/
def formEncode (s : String) : String :=
  String.join (s.toList.map formEncodeChar)

/-- `new URLSearchParams(record).toString()`: `k=v` pairs in object order,
joined with `&`. -/
def serializeParams (ps : List (String × String)) : String :=
  String.intercalate "&" (ps.map (fun p => formEncode p.1 ++ "=" ++ formEncode p.2))

/-- `Api.buildUrl`: trim the endpoint, drop undefined/null/empty-string
parameters, coerce the rest to strings, and append `?query` only when the
serialized query is nonempty. -/
def buildUrl (endpoint : String) (searchParams : Option (List (String × ParamValue))) : String :=
  let cleanEndpoint := jsTrim endpoint
  match searchParams with
  | none => cleanEndpoint
  | some ps =>
    let filteredParams :=
      ps.foldl (fun acc kv => if keepParam kv.2 then jsSet acc kv.1 (jsString kv.2) else acc) []
    let queryString := serializeParams filteredParams
    if queryString = "" then cleanEndpoint else cleanEndpoint ++ "?" ++ queryString

/-- The effective configuration (`Required<ApiConfig>` after the constructor's
defaulting) restricted to the data the core consumes.  The hook functions
`onRequest`/`onResponse`/`onRequestError`/`signOut` are modelled by the default
behaviours plus invocation counting in `Effects`; the session provider's
behaviour is the data `getSessionResult`. -/
structure ApiModel where
  enableAuth : Bool
  maxRetries : Nat
  retryDelay : Nat
  timeout : Nat
  headers : List (String × String)
  services : List (String × ServiceConfig)
  getSessionResult : SessionResult
  debug : Bool
deriving DecidableEq, Repr

/-- The `currentToken: string | null` instance field. -/
structure TokenState where
  currentToken : Option String
deriving DecidableEq, Repr

/-- `Api.setToken(token)`. -/
def setToken (_st : TokenState) (token : String) : TokenState :=
  { currentToken := some token }

/-- `Api.clearToken()`. -/
def clearToken (_st : TokenState) : TokenState :=
  { currentToken := none }

/-- `Api.getCurrentToken()`: returns the resolved token, the updated cache
state, and whether the session provider was invoked.  Provider failure is
caught and mapped to `null`. -/
def getCurrentToken (cfg : ApiModel) (st : TokenState) : Option String × TokenState × Bool :=
  if cfg.enableAuth = false then (none, st, false)
  else if strTruthy st.currentToken then (st.currentToken, st, false)
  else
    match cfg.getSessionResult with
    | SessionResult.throws => (none, st, true)
    | SessionResult.ok sess =>
      let token : Option String :=
        match sess with
        | some s => if s.accessToken = "" then none else some s.accessToken
        | none => none
      match token with
      | some t => (some t, { currentToken := some t }, true)
      | none => (none, st, true)

/-- `Api.getServiceByUrl(url)`: first registered service whose `url` matches. -/
def getServiceByUrl (services : List (String × ServiceConfig)) (url : String) : Option ServiceConfig :=
  match services.find? (fun p => p.2.url = url) with
  | some p => some p.2
  | none => none

/-- The outgoing axios request config, restricted to the fields the core
reads or writes. -/
structure AxiosReqConfig where
  url : Option String
  method : Option String
  baseURL : Option String
  headers : List (String × String)
deriving DecidableEq, Repr

/-- `Api.getServiceConfig(service, config)`: resolve the service by name
(throwing `ApiError` when absent), copy the caller headers, and attach the
bearer header when the service and the global flag both enable auth and a
token resolves.  Returns the composed config, the updated token state and
whether the session provider was invoked. -/
def getServiceConfig (cfg : ApiModel) (st : TokenState) (service : String)
    (config : AxiosReqConfig) : Except ApiError (AxiosReqConfig × TokenState × Bool) :=
  match jsGet cfg.services service with
  | none =>
    Except.error (mkApiError ("Service '" ++ service ++ "' not found in configuration"))
  | some serviceConfig =>
    if optTruthy serviceConfig.enableAuth && cfg.enableAuth then
      let r := getCurrentToken cfg st
      match r.1 with
      | some t =>
        Except.ok
          ({ config with baseURL := some serviceConfig.url,
                         headers := jsSet config.headers "Authorization" ("Bearer " ++ t) },
           r.2.1, r.2.2)
      | none =>
        Except.ok ({ config with baseURL := some serviceConfig.url }, r.2.1, r.2.2)
    else
      Except.ok ({ config with baseURL := some serviceConfig.url }, st, false)

/-- The request interceptor installed by `setupInterceptors`, at the default
(identity) `onRequest` hook: resolve the target service from the config's
`baseURL` and attach the bearer header when that service enables auth and a
token resolves.  Returns the config, token state and provider-invocation flag. -/
def requestInterceptor (cfg : ApiModel) (st : TokenState) (config : AxiosReqConfig) :
    AxiosReqConfig × TokenState × Bool :=
  match config.baseURL with
  | none => (config, st, false)
  | some url =>
    match getServiceByUrl cfg.services url with
    | none => (config, st, false)
    | some sc =>
      if optTruthy sc.enableAuth then
        let r := getCurrentToken cfg st
        match r.1 with
        | some t =>
          ({ config with headers := jsSet config.headers "Authorization" ("Bearer " ++ t) },
           r.2.1, r.2.2)
        | none => (config, r.2.1, r.2.2)
      else (config, st, false)

/-- A transport failure (`AxiosError`), restricted to the fields the error
interceptor reads: presence of `error.config`, `error.response?.status`,
`error.message` / `error.code`, and the server body's message/code fields. -/
structure AxiosErr where
  hasConfig : Bool
  status : Option Nat
  message : String
  code : Option String
  respMessage : Option String
  respCode : Option String
deriving DecidableEq, Repr

/-- One transport attempt either fulfills with a response body (2xx) or
rejects with an `AxiosError`. -/
inductive TransportResult
  | ok (body : String)
  | err (e : AxiosErr)
deriving DecidableEq, Repr

/-- An error value reaching the caller: a typed `ApiError` (possibly the
`AuthenticationError` subtype) or the raw, unnormalized transport error. -/
inductive ErrVal
  | api (e : ApiError)
  | raw (e : AxiosErr)
deriving DecidableEq, Repr

/-- The outcome a caller observes: the unwrapped response body or an error. -/
inductive Outcome
  | ok (body : String)
  | err (e : ErrVal)
deriving DecidableEq, Repr

/-- Observable collaborator invocations accumulated over one `request` call.
`sent` records the config of every transport dispatch, in order. -/
structure Effects where
  sent : List AxiosReqConfig
  signOutCalls : Nat
  onRequestErrorCalls : Nat
  onResponseCalls : Nat
  onRequestCalls : Nat
  providerCalls : Nat
deriving DecidableEq, Repr

/-- No collaborator invoked yet. -/
def Effects.empty : Effects := ⟨[], 0, 0, 0, 0, 0⟩

/-- `error.response?.status && error.response.status >= 500`. -/
def statusIs5xx : Option Nat → Bool
  | some s => decide (500 ≤ s)
  | none => false

/-- The message of the rejection produced by the 401 branch. -/
def unauthorizedMessage : String := "Unauthorized, user logged out."

/-- Diagnostic bundle of `createApiError` (`JSON.stringify` of endpoint,
method, service and request data; the exact format is observability-only per
the spec, so a plain serialization is used). -/
def contextString (endpoint method service : String) : String :=
  "endpoint=" ++ endpoint ++ ";method=" ++ method ++ ";service=" ++ service

/-- `Api.createApiError(error, context)`. -/
def createApiError (e : AxiosErr) (endpoint method service : String) : ApiError :=
  { name := "ApiError"
    message := jsOrS e.respMessage e.message
    status := e.status
    code := jsOrO e.respCode e.code
    context := some (contextString endpoint method service) }

/-- The terminal branch of the response error interceptor: normalize the
error (`createApiError` with `endpoint := originalRequest.url || ''`,
`method := originalRequest.method?.toUpperCase() || 'GET'`, service
`'private'`), invoke `onRequestError` via `handleRequestError`, run the
response interceptor, and reject with the `ApiError`. -/
def terminalNormalize (e : AxiosErr) (c : AxiosReqConfig) (st : TokenState) (eff : Effects) :
    Outcome × TokenState × Effects :=
  let apiError := createApiError e (jsOrS c.url "") (jsOrS (c.method.map String.toUpper) "GET") "private"
  (Outcome.err (ErrVal.api apiError), st,
    { eff with onRequestErrorCalls := eff.onRequestErrorCalls + 1,
               onResponseCalls := eff.onResponseCalls + 1 })

/-- Result of a single dispatch attempt through the interceptor chain:
either a final outcome or a decision to re-dispatch (5xx retry). -/
inductive StepResult
  | done (r : Outcome × TokenState × Effects)
  | retry (e : AxiosErr) (c : AxiosReqConfig) (st : TokenState) (eff : Effects)
deriving DecidableEq, Repr

/-- One pass through the axios instance with interceptors installed: run the
request interceptor, dispatch through the transport, then classify the result
exactly as the response error interceptor does (no-config pass-through, 401
sign-out, bounded 5xx retry, terminal normalization). -/
def dispatchStep (cfg : ApiModel) (transport : Nat → AxiosReqConfig → TransportResult)
    (config : AxiosReqConfig) (st : TokenState) (eff : Effects) (retryCount : Nat) : StepResult :=
  let p := requestInterceptor cfg st config
  let c := p.1
  let st1 := p.2.1
  let eff1 := { eff with onRequestCalls := eff.onRequestCalls + 1,
                         providerCalls := eff.providerCalls + (if p.2.2 then 1 else 0) }
  let r := transport eff1.sent.length c
  let eff2 := { eff1 with sent := eff1.sent ++ [c] }
  match r with
  | TransportResult.ok body =>
    StepResult.done (Outcome.ok body, st1,
      { eff2 with onResponseCalls := eff2.onResponseCalls + 1 })
  | TransportResult.err e =>
    if e.hasConfig = false then
      StepResult.done (Outcome.err (ErrVal.raw e), st1,
        { eff2 with onResponseCalls := eff2.onResponseCalls + 1 })
    else if e.status = some 401 then
      StepResult.done (Outcome.err (ErrVal.api (AuthenticationError unauthorizedMessage)), st1,
        { eff2 with signOutCalls := eff2.signOutCalls + 1,
                    onResponseCalls := eff2.onResponseCalls + 1 })
    else if statusIs5xx e.status = true ∧ retryCount < cfg.maxRetries then
      StepResult.retry e c st1 eff2
    else
      StepResult.done (terminalNormalize e c st1 eff2)

/-- The retry loop of the response error interceptor: re-dispatch the
post-interceptor request with `_retryCount` incremented while the step
decides to retry.  `fuel` bounds the recursion; every call site passes
`maxRetries + 1`, which the guard `retryCount < maxRetries` never exhausts,
so the fuel-out arm (which normalizes like the exhausted-retries branch) is
unreachable. -/
def dispatchAux (cfg : ApiModel) (transport : Nat → AxiosReqConfig → TransportResult) :
    Nat → AxiosReqConfig → TokenState → Effects → Nat → Outcome × TokenState × Effects
  | 0, config, st, eff, retryCount =>
    (match dispatchStep cfg transport config st eff retryCount with
     | StepResult.done r => r
     | StepResult.retry e c st1 eff2 => terminalNormalize e c st1 eff2)
  | Nat.succ f, config, st, eff, retryCount =>
    (match dispatchStep cfg transport config st eff retryCount with
     | StepResult.done r => r
     | StepResult.retry _ c st1 eff2 => dispatchAux cfg transport f c st1 eff2 (retryCount + 1))

/-- Dispatch through the bare axios instance when no interceptors were
installed: a single transport attempt whose rejection propagates raw. -/
def dispatchPlain (transport : Nat → AxiosReqConfig → TransportResult)
    (config : AxiosReqConfig) (eff : Effects) : Outcome × Effects :=
  match transport eff.sent.length config with
  | TransportResult.ok body => (Outcome.ok body, { eff with sent := eff.sent ++ [config] })
  | TransportResult.err e =>
    (Outcome.err (ErrVal.raw e), { eff with sent := eff.sent ++ [config] })

/-- `Api.executeRequest`: set `_retryCount` to 0, record the url/method on the
request config, and dispatch through the axios instance — with the interceptor
chain iff the constructor installed it (`config.enableAuth`). -/
def executeRequest (cfg : ApiModel) (transport : Nat → AxiosReqConfig → TransportResult)
    (method url : String) (config : AxiosReqConfig) (st : TokenState) (eff : Effects) :
    Outcome × TokenState × Effects :=
  let requestConfig : AxiosReqConfig := { config with url := some url, method := some method }
  if cfg.enableAuth then
    dispatchAux cfg transport (cfg.maxRetries + 1) requestConfig st eff 0
  else
    let r := dispatchPlain transport requestConfig eff
    (r.1, st, r.2)

/-- `Api.request`: resolve the service config (propagating its `ApiError`
synchronously when the service is unknown, before any transport or hook
activity), build the URL, and execute. -/
def request (cfg : ApiModel) (transport : Nat → AxiosReqConfig → TransportResult)
    (endpoint method : String) (searchParams : Option (List (String × ParamValue)))
    (service : String) (config : AxiosReqConfig) (st : TokenState) :
    Outcome × TokenState × Effects :=
  match getServiceConfig cfg st service config with
  | Except.error e => (Outcome.err (ErrVal.api e), st, Effects.empty)
  | Except.ok sr =>
    let url := buildUrl endpoint searchParams
    let eff0 : Effects := { Effects.empty with providerCalls := if sr.2.2 then 1 else 0 }
    executeRequest cfg transport method url sr.1 sr.2.1 eff0

/-- The caller-facing `ApiConfig` options object (`types.ts`), restricted to
the options the modelled core consumes; `getSession`/`signOut` presence
carries the collaborator behaviour (for `getSession`) or is presence-only
(for `signOut`, whose model is invocation counting). -/
structure ApiOptions where
  baseUrl : String
  timeout : Option Nat
  headers : List (String × String)
  enableAuth : Option Bool
  maxRetries : Option Nat
  retryDelay : Option Nat
  services : List (String × ServiceConfig)
  getSession : Option SessionResult
  signOut : Option Unit
  debug : Option Bool
deriving DecidableEq, Repr

/-- The defaulting part of the `Api` constructor: `??`-defaults, the
content-type default header merged under caller headers, and the `public`
(auth off) / `private` (auth on) service seeds merged under caller services. -/
def buildConfig (o : ApiOptions) : ApiModel :=
  { enableAuth := o.enableAuth.getD true
    maxRetries := o.maxRetries.getD 3
    retryDelay := o.retryDelay.getD 1000
    timeout := o.timeout.getD 10000
    headers := jsSpread [("Content-Type", "application/json")] o.headers
    services :=
      jsSpread [("public", ⟨o.baseUrl, some false⟩), ("private", ⟨o.baseUrl, some true⟩)]
        o.services
    getSessionResult := (o.getSession).getD (SessionResult.ok none)
    debug := o.debug.getD false }

/-- The `Api` constructor: validate (only when the *option* `enableAuth` is
truthy) that both auth hooks were supplied, then build the effective config. -/
def ApiConstructor (o : ApiOptions) : Except String ApiModel :=
  if optTruthy o.enableAuth then
    if o.getSession.isNone || o.signOut.isNone then
      Except.error "getSession and signOut functions are required when enableAuth is true"
    else Except.ok (buildConfig o)
  else Except.ok (buildConfig o)

/-- A transport attempt that rejects as an always-5xx server failure
(`error.config` present, status ≥ 500). -/
def isServerErrB : TransportResult → Bool
  | TransportResult.ok _ => false
  | TransportResult.err e => e.hasConfig && statusIs5xx e.status

/-- Number of `onRequestError` invocations the terminal outcome accounts for:
1 for a normalized generic `ApiError`, 0 otherwise. -/
def normCount : Outcome → Nat
  | Outcome.err (ErrVal.api e) => if e.name = "ApiError" then 1 else 0
  | _ => 0

/-- The outcome is a normalized generic `ApiError` (the error-normalizer
product, as opposed to a raw transport error or an `AuthenticationError`). -/
def isNormalized (o : Outcome) : Prop :=
  ∃ a, o = Outcome.err (ErrVal.api a) ∧ a.name = "ApiError"

/-- Whether the service resolved *by name* enables auth. -/
def nameAuthEnabled (cfg : ApiModel) (service : String) : Bool :=
  match jsGet cfg.services service with
  | some sc => optTruthy sc.enableAuth
  | none => false

/-- Whether the first registry service matching a base URL enables auth
(the reverse lookup the request interceptor performs). -/
def urlAuthOf (cfg : ApiModel) (u : Option String) : Bool :=
  match u with
  | some url =>
    match getServiceByUrl cfg.services url with
    | some sc => optTruthy sc.enableAuth
    | none => false
  | none => false

/-- Whether the URL-based reverse lookup of the named service's own URL
enables auth. -/
def urlAuthEnabled (cfg : ApiModel) (service : String) : Bool :=
  match jsGet cfg.services service with
  | some sc => urlAuthOf cfg (some sc.url)
  | none => false

/-- Invariant carried through the dispatch loop for claim C3: an attached
`Authorization` header implies global auth is on, the value is exactly
`Bearer <token>` for a nonempty token, and auth was enabled either by the
named service (`byName`) or by the URL-resolved service of the config's
base URL. -/
def authHeaderOK (cfg : ApiModel) (byName : Bool) (c : AxiosReqConfig) : Prop :=
  ∀ v, jsGet c.headers "Authorization" = some v →
    cfg.enableAuth = true ∧ (∃ t, t ≠ "" ∧ v = "Bearer " ++ t) ∧
    (byName = true ∨ urlAuthOf cfg c.baseURL = true)

/-- Example effective configuration: auth on, retry budget 2, the default
`public`/`private` services over one base URL, a session provider that
resolves the token `tok`. -/
def sampleCfg : ApiModel :=
  { enableAuth := true, maxRetries := 2, retryDelay := 1000, timeout := 10000,
    headers := [("Content-Type", "application/json")],
    services := [("public", ⟨"https://api.example.com", some false⟩),
                 ("private", ⟨"https://api.example.com", some true⟩)],
    getSessionResult := SessionResult.ok (some ⟨"tok"⟩), debug := false }

/-- Example effective configuration with global auth disabled. -/
def sampleCfgNoAuth : ApiModel :=
  { sampleCfg with enableAuth := false }

/-- Example configuration in which the caller overrode `public` to an
auth-enabled service sharing its URL with the custom auth-disabled service
`x` (legal per the configuration surface: caller entries win). -/
def aliasedCfg : ApiModel :=
  { enableAuth := true, maxRetries := 3, retryDelay := 1000, timeout := 10000,
    headers := [("Content-Type", "application/json")],
    services := [("public", ⟨"https://a.example.com", some true⟩),
                 ("private", ⟨"https://b.example.com", some true⟩),
                 ("x", ⟨"https://a.example.com", some false⟩)],
    getSessionResult := SessionResult.ok none, debug := false }

/-- An empty caller request config. -/
def conf0 : AxiosReqConfig := ⟨none, none, none, []⟩

/-- A 500 transport rejection carrying its request config. -/
def err500 : AxiosErr := ⟨true, some 500, "Internal Server Error", none, none, none⟩

/-- A 401 transport rejection carrying its request config. -/
def err401 : AxiosErr := ⟨true, some 401, "Request failed with status code 401", none, none, none⟩

/-- A transport failing with 500 on every attempt. -/
def t500 : Nat → AxiosReqConfig → TransportResult := fun _ _ => TransportResult.err err500

/-- A transport failing with 401 on every attempt. -/
def t401 : Nat → AxiosReqConfig → TransportResult := fun _ _ => TransportResult.err err401

/-- A transport succeeding on every attempt. -/
def tOk : Nat → AxiosReqConfig → TransportResult := fun _ _ => TransportResult.ok "ok"

/-- Constructor options with every optional field omitted. -/
def optsOmitted : ApiOptions :=
  ⟨"https://api.example.com", none, [], none, none, none, [], none, none, none⟩

/-- Constructor options with `enableAuth: true` and no auth hooks. -/
def optsExplicitTrue : ApiOptions :=
  ⟨"https://api.example.com", none, [], some true, none, none, [], none, none, none⟩

/-- Constructor options with `enableAuth: false` and no auth hooks. -/
def optsFalse : ApiOptions :=
  ⟨"https://api.example.com", none, [], some false, none, none, [], none, none, none⟩

/-! ## Helper lemmas -/

theorem jsGet_jsSet_self {α : Type} (m : List (String × α)) (k : String) (v : α) :
    jsGet (jsSet m k v) k = some v := by
  induction m with
  | nil => simp [jsSet, jsGet]
  | cons a m ih =>
    by_cases ha : a.1 = k
    · simp [jsSet, jsGet, ha]
    · by_cases hm : m.any (fun p => p.1 = k)
      · have h2 : jsSet (a :: m) k v = a :: List.map (fun p => if p.1 = k then (k, v) else p) m := by
          simp [jsSet, ha, hm, List.any_cons]
        have h3 : jsSet m k v = List.map (fun p => if p.1 = k then (k, v) else p) m := by
          simp [jsSet, hm]
        rw [h2]
        rw [h3] at ih
        simpa [jsGet, List.find?, ha] using ih
      · have h2 : jsSet (a :: m) k v = a :: (m ++ [(k, v)]) := by
          simp [jsSet, ha, hm, List.any_cons]
        have h3 : jsSet m k v = m ++ [(k, v)] := by
          simp [jsSet, hm]
        rw [h2]
        rw [h3] at ih
        simpa [jsGet, List.find?, ha] using ih

theorem buildUrl_foldl_filter (ps : List (String × ParamValue)) (acc : List (String × String)) :
    ps.foldl (fun acc kv => if keepParam kv.2 then jsSet acc kv.1 (jsString kv.2) else acc) acc =
    (ps.filter (fun kv => keepParam kv.2)).foldl
      (fun acc kv => if keepParam kv.2 then jsSet acc kv.1 (jsString kv.2) else acc) acc := by
  induction ps generalizing acc with
  | nil => rfl
  | cons kv ps ih =>
    simp only [List.foldl_cons, List.filter_cons]
    by_cases h : keepParam kv.2
    · simp only [h, if_true, List.foldl_cons, ih]
    · simp only [h, if_false, Bool.false_eq_true, ih]

theorem getCurrentToken_some (cfg : ApiModel) (st : TokenState) (t : String)
    (h : (getCurrentToken cfg st).1 = some t) : t ≠ "" ∧ cfg.enableAuth = true := by
  by_cases hA : cfg.enableAuth = false
  · simp [getCurrentToken, hA] at h
  · have hA' : cfg.enableAuth = true := by
      cases hE : cfg.enableAuth
      · exact absurd hE hA
      · rfl
    refine ⟨?_, hA'⟩
    by_cases hC : strTruthy st.currentToken = true
    · simp only [getCurrentToken, hA', hC] at h
      simp only [Bool.true_eq_false, if_false, if_true] at h
      cases hcur : st.currentToken with
      | none => simp [strTruthy, hcur] at hC
      | some s =>
        rw [hcur] at h
        cases h
        simp only [strTruthy, hcur, Bool.not_eq_true'] at hC
        intro he
        rw [he] at hC
        exact absurd hC (by decide)
    · simp only [getCurrentToken, hA'] at h
      rw [if_neg (by simp)] at h
      rw [if_neg hC] at h
      cases hS : cfg.getSessionResult with
      | throws => rw [hS] at h; simp at h
      | ok sess =>
        rw [hS] at h
        cases sess with
        | none => simp at h
        | some s =>
          by_cases he : s.accessToken = ""
          · simp [he] at h
          · simp [he] at h
            intro habs
            rw [← h] at habs
            exact he habs

theorem getServiceConfig_resolves (cfg : ApiModel) (st : TokenState) (service : String)
    (config : AxiosReqConfig) (sc : ServiceConfig) (hg : jsGet cfg.services service = some sc) :
    ∃ c1 st1 b, getServiceConfig cfg st service config = Except.ok (c1, st1, b) := by
  simp only [getServiceConfig, hg]
  by_cases hc : (optTruthy sc.enableAuth && cfg.enableAuth) = true
  · rw [if_pos hc]
    cases (getCurrentToken cfg st).1
    · exact ⟨_, _, _, rfl⟩
    · exact ⟨_, _, _, rfl⟩
  · rw [if_neg hc]
    exact ⟨_, _, _, rfl⟩

theorem getServiceConfig_noGlobalAuth (cfg : ApiModel) (st : TokenState) (service : String)
    (config : AxiosReqConfig) (sc : ServiceConfig)
    (hg : jsGet cfg.services service = some sc) (hA : cfg.enableAuth = false) :
    getServiceConfig cfg st service config =
      Except.ok ({ config with baseURL := some sc.url }, st, false) := by
  simp [getServiceConfig, hg, hA]

theorem dispatchPlain_eff (transport : Nat → AxiosReqConfig → TransportResult)
    (config : AxiosReqConfig) (eff : Effects) :
    (dispatchPlain transport config eff).2 = { eff with sent := eff.sent ++ [config] } := by
  simp only [dispatchPlain]
  cases transport eff.sent.length config
  · rfl
  · rfl

/-! ## Claim C5: constructor validation -/

/-- C5 (counterexample): constructing with `enableAuth` omitted and neither a
session provider nor a sign-out handler succeeds, even though the effective
configuration has auth enabled (the validation reads the raw option, which is
falsy when omitted) — contradicting the claim that construction fails whenever
auth is enabled, including by default. -/
theorem c5_counterexample :
    optsOmitted.enableAuth = none ∧ optsOmitted.getSession = none ∧ optsOmitted.signOut = none ∧
    ApiConstructor optsOmitted = Except.ok (buildConfig optsOmitted) ∧
    (buildConfig optsOmitted).enableAuth = true := by
  refine ⟨rfl, rfl, rfl, ?_, rfl⟩
  rfl

/-- C5 (amended): construction fails synchronously with the fixed
configuration-error message only when `enableAuth` is *explicitly* passed as
true and a session provider or sign-out handler is missing; construction with
`enableAuth = false` and no auth hooks succeeds; and when the option is
omitted, construction succeeds without hooks although effective auth defaults
to true. -/
theorem c5_amended (o : ApiOptions) :
    (o.enableAuth = some true → (o.getSession.isNone || o.signOut.isNone) = true →
      ApiConstructor o =
        Except.error "getSession and signOut functions are required when enableAuth is true") ∧
    (o.enableAuth = some false → ApiConstructor o = Except.ok (buildConfig o)) ∧
    (o.enableAuth = none →
      ApiConstructor o = Except.ok (buildConfig o) ∧ (buildConfig o).enableAuth = true) := by
  refine ⟨?_, ?_, ?_⟩
  · intro hT hMiss
    simp [ApiConstructor, optTruthy, hT, hMiss]
  · intro hF
    simp [ApiConstructor, optTruthy, hF]
  · intro hN
    refine ⟨by simp [ApiConstructor, optTruthy, hN], ?_⟩
    simp [buildConfig, hN]

/-- C5 (witness): the amended theorem instantiated at concrete options:
explicit `enableAuth: true` without hooks fails with the fixed message, and
omitted `enableAuth` without hooks succeeds with effective auth on. -/
theorem c5_witness :
    ApiConstructor optsExplicitTrue =
      Except.error "getSession and signOut functions are required when enableAuth is true" ∧
    (ApiConstructor optsOmitted = Except.ok (buildConfig optsOmitted) ∧
      (buildConfig optsOmitted).enableAuth = true) :=
  ⟨(c5_amended optsExplicitTrue).1 rfl rfl, (c5_amended optsOmitted).2.2 rfl⟩

/-! ## Claim C7: token acquisition -/

/-- C7: `getCurrentToken` resolves null without a provider call when global
auth is disabled; returns a cached (necessarily nonempty) token without a
provider call; otherwise invokes the provider, caching and returning a
nonempty credential on success, and returning null with the cache untouched
when the provider yields no credential, an empty credential, or fails —
failure is absorbed, never propagated. -/
theorem c7_getCurrentToken (cfg : ApiModel) (st : TokenState) :
    (cfg.enableAuth = false → getCurrentToken cfg st = (none, st, false)) ∧
    (cfg.enableAuth = true → ∀ t, st.currentToken = some t → t ≠ "" →
      getCurrentToken cfg st = (some t, st, false)) ∧
    (cfg.enableAuth = true → strTruthy st.currentToken = false →
      cfg.getSessionResult = SessionResult.throws →
      getCurrentToken cfg st = (none, st, true)) ∧
    (cfg.enableAuth = true → strTruthy st.currentToken = false →
      cfg.getSessionResult = SessionResult.ok none →
      getCurrentToken cfg st = (none, st, true)) ∧
    (cfg.enableAuth = true → strTruthy st.currentToken = false →
      cfg.getSessionResult = SessionResult.ok (some ⟨""⟩) →
      getCurrentToken cfg st = (none, st, true)) ∧
    (cfg.enableAuth = true → strTruthy st.currentToken = false → ∀ t, t ≠ "" →
      cfg.getSessionResult = SessionResult.ok (some ⟨t⟩) →
      getCurrentToken cfg st = (some t, ⟨some t⟩, true)) := by
  refine ⟨?_, ?_, ?_, ?_, ?_, ?_⟩
  · intro hF
    simp [getCurrentToken, hF]
  · intro hT t hcur hne
    have hie : t.isEmpty = false := by
      cases hie2 : t.isEmpty
      · rfl
      · exact absurd ((String.isEmpty_iff t).1 hie2) hne
    simp [getCurrentToken, hT, hcur, strTruthy, hie]
  · intro hT hC hS
    simp [getCurrentToken, hT, hC, hS]
  · intro hT hC hS
    simp [getCurrentToken, hT, hC, hS]
  · intro hT hC hS
    simp [getCurrentToken, hT, hC, hS]
  · intro hT hC t hne hS
    simp [getCurrentToken, hT, hC, hS, hne]

/-- C7 (witness): on the sample configuration with an empty cache, the
provider is invoked and its token `tok` is returned and cached. -/
theorem c7_witness :
    sampleCfg.enableAuth = true ∧ strTruthy (TokenState.mk none).currentToken = false ∧
    ("tok" : String) ≠ "" ∧ sampleCfg.getSessionResult = SessionResult.ok (some ⟨"tok"⟩) ∧
    getCurrentToken sampleCfg ⟨none⟩ = (some "tok", ⟨some "tok"⟩, true) :=
  ⟨rfl, rfl, by decide, rfl,
    (c7_getCurrentToken sampleCfg ⟨none⟩).2.2.2.2.2 rfl rfl "tok" (by decide) rfl⟩

/-! ## Claim C8: unregistered service name -/

/-- C8 (counterexample): requesting an unregistered service fails with an
error whose message is `Service 'nope' not found in configuration`, not the
claimed `Service 'nope' not found`. -/
theorem c8_counterexample :
    (request sampleCfg t500 "/x" "GET" none "nope" conf0 ⟨none⟩).1 =
      Outcome.err (ErrVal.api (mkApiError "Service 'nope' not found in configuration")) ∧
    ("Service 'nope' not found in configuration" : String) ≠ "Service 'nope' not found" := by
  exact ⟨rfl, by decide⟩

/-- C8 (amended): requesting with an unregistered service name fails
immediately with a generic API error reading
`Service '<name>' not found in configuration`, carrying no status code,
without invoking the transport, without retry or auth handling, and without
invoking `onRequestError` (all collaborator counters stay zero). -/
theorem c8_amended (cfg : ApiModel) (transport : Nat → AxiosReqConfig → TransportResult)
    (endpoint method : String) (sp : Option (List (String × ParamValue)))
    (service : String) (config : AxiosReqConfig) (st : TokenState)
    (h : jsGet cfg.services service = none) :
    request cfg transport endpoint method sp service config st =
      (Outcome.err (ErrVal.api
        (mkApiError ("Service '" ++ service ++ "' not found in configuration"))),
       st, Effects.empty) ∧
    (mkApiError ("Service '" ++ service ++ "' not found in configuration")).status = none := by
  refine ⟨?_, rfl⟩
  simp [request, getServiceConfig, h]

/-- C8 (witness): the amended theorem instantiated at the sample
configuration and the unregistered name `nope`. -/
theorem c8_witness :
    jsGet sampleCfg.services "nope" = none ∧
    (request sampleCfg t500 "/y" "GET" none "nope" conf0 ⟨none⟩ =
      (Outcome.err (ErrVal.api (mkApiError "Service 'nope' not found in configuration")),
       TokenState.mk none, Effects.empty) ∧
     (mkApiError "Service 'nope' not found in configuration").status = none) :=
  ⟨by decide, c8_amended sampleCfg t500 "/y" "GET" none "nope" conf0 ⟨none⟩ (by decide)⟩

/-! ## Claim C9: URL builder filtering -/

/-- C9: the URL builder drops search-parameter entries whose value is
undefined, null, or the empty string — building from any parameter list
equals building from its kept-entry sublist; the concrete query
`page=1, limit=undefined, active=true, filter=""` builds the same URL as
`page=1, active=true`; and when no entry survives the filter, the result is
exactly the trimmed path with no `?` appended. -/
theorem c9_buildUrl_filtering (endpoint : String) (ps : List (String × ParamValue)) :
    buildUrl endpoint (some ps) =
      buildUrl endpoint (some (ps.filter (fun kv => keepParam kv.2))) ∧
    buildUrl endpoint (some [("page", ParamValue.num 1), ("limit", ParamValue.undefined),
        ("active", ParamValue.bool true), ("filter", ParamValue.str "")]) =
      buildUrl endpoint (some [("page", ParamValue.num 1), ("active", ParamValue.bool true)]) ∧
    (ps.filter (fun kv => keepParam kv.2) = [] →
      buildUrl endpoint (some ps) = jsTrim endpoint) := by
  refine ⟨?_, rfl, ?_⟩
  · simp only [buildUrl]
    rw [buildUrl_foldl_filter]
  · intro h
    simp only [buildUrl]
    rw [buildUrl_foldl_filter, h]
    rfl

/-- C9 (witness): a list whose only entry is null filters to nothing, and the
builder returns the trimmed path `"/x"` for endpoint `" /x "` with no `?`. -/
theorem c9_witness :
    ([(("a" : String), ParamValue.null)].filter (fun kv => keepParam kv.2) = []) ∧
    buildUrl " /x " (some [("a", ParamValue.null)]) = jsTrim " /x " :=
  ⟨by decide, (c9_buildUrl_filtering " /x " [("a", ParamValue.null)]).2.2 (by decide)⟩

/-! ## Claim C10: setToken with the empty string -/

/-- C10: `setToken("")` does not install a usable cached token — the
cache-presence check treats the empty string as no token, so the next
`getCurrentToken` invokes the session provider again and resolves exactly as
it would after `clearToken()`. -/
theorem c10_setToken_empty (cfg : ApiModel) (st : TokenState)
    (h : cfg.enableAuth = true) :
    (getCurrentToken cfg (setToken st "")).2.2 = true ∧
    (getCurrentToken cfg (setToken st "")).1 = (getCurrentToken cfg (clearToken st)).1 ∧
    strTruthy (setToken st "").currentToken = false := by
  have hset : setToken st "" = ⟨some ""⟩ := rfl
  have hclear : clearToken st = ⟨none⟩ := rfl
  have hE : ("" : String).isEmpty = true := by decide
  rw [hset, hclear]
  cases hS : cfg.getSessionResult with
  | throws => simp [getCurrentToken, h, hS, strTruthy, hE]
  | ok sess =>
    cases sess with
    | none => simp [getCurrentToken, h, hS, strTruthy, hE]
    | some s =>
      by_cases he : s.accessToken = ""
      · simp [getCurrentToken, h, hS, strTruthy, hE, he]
      · simp [getCurrentToken, h, hS, strTruthy, hE, he]

/-- C10 (witness): on the sample configuration, after `setToken("")` the
provider is invoked and resolves the same token as after `clearToken()`. -/
theorem c10_witness :
    sampleCfg.enableAuth = true ∧
    ((getCurrentToken sampleCfg (setToken ⟨none⟩ "")).2.2 = true ∧
     (getCurrentToken sampleCfg (setToken ⟨none⟩ "")).1 =
       (getCurrentToken sampleCfg (clearToken ⟨none⟩)).1 ∧
     strTruthy (setToken ⟨none⟩ "").currentToken = false) :=
  ⟨rfl, c10_setToken_empty sampleCfg ⟨none⟩ rfl⟩

/-! ## Claim C2: 401 handling -/

/-- C2: when the transport rejects every attempt with a config-carrying 401
error, the request resolves to the `AuthenticationError` subtype (status 401,
code `AUTHENTICATION_ERROR`), the sign-out handler is invoked exactly once,
and the transport is invoked exactly once — regardless of the remaining retry
budget (`maxRetries` is arbitrary here). -/
theorem c2_unauthorized (cfg : ApiModel) (transport : Nat → AxiosReqConfig → TransportResult)
    (endpoint method : String) (sp : Option (List (String × ParamValue)))
    (service : String) (config : AxiosReqConfig) (st : TokenState) (sc : ServiceConfig)
    (hAuth : cfg.enableAuth = true) (hg : jsGet cfg.services service = some sc)
    (e : AxiosErr) (he : ∀ n c, transport n c = TransportResult.err e)
    (hcfg : e.hasConfig = true) (h401 : e.status = some 401) :
    (request cfg transport endpoint method sp service config st).1 =
      Outcome.err (ErrVal.api (AuthenticationError unauthorizedMessage)) ∧
    (request cfg transport endpoint method sp service config st).2.2.signOutCalls = 1 ∧
    (request cfg transport endpoint method sp service config st).2.2.sent.length = 1 ∧
    (AuthenticationError unauthorizedMessage).status = some 401 ∧
    (AuthenticationError unauthorizedMessage).code = some "AUTHENTICATION_ERROR" := by
  obtain ⟨c1, st1, b, hok⟩ := getServiceConfig_resolves cfg st service config sc hg
  refine ⟨?_, ?_, ?_, rfl, rfl⟩ <;>
    simp [request, hok, executeRequest, hAuth, dispatchAux, dispatchStep, he, hcfg, h401,
      Effects.empty]

/-- C2 (witness): on the sample configuration with an always-401 transport,
the caller receives the `AuthenticationError` and sign-out runs once. -/
theorem c2_witness :
    sampleCfg.enableAuth = true ∧
    ((request sampleCfg t401 "/x" "GET" none "private" conf0 ⟨none⟩).1 =
        Outcome.err (ErrVal.api (AuthenticationError unauthorizedMessage)) ∧
      (request sampleCfg t401 "/x" "GET" none "private" conf0 ⟨none⟩).2.2.signOutCalls = 1 ∧
      (request sampleCfg t401 "/x" "GET" none "private" conf0 ⟨none⟩).2.2.sent.length = 1 ∧
      (AuthenticationError unauthorizedMessage).status = some 401 ∧
      (AuthenticationError unauthorizedMessage).code = some "AUTHENTICATION_ERROR") :=
  ⟨rfl, c2_unauthorized sampleCfg t401 "/x" "GET" none "private" conf0 ⟨none⟩
    ⟨"https://api.example.com", some true⟩ rfl (by decide) err401 (fun _ _ => rfl) rfl rfl⟩

/-! ## Claim C4: no interceptors when auth is disabled -/

/-- C4: when the pipeline is constructed with `enableAuth = false`, no
interceptor machinery runs: a failing transport propagates its raw error
after exactly one attempt (no 5xx retry, no sign-out on 401, no
normalization, no `onRequestError`), and for any transport the user hooks
and the session provider are never invoked. -/
theorem c4_no_interceptors (cfg : ApiModel) (transport : Nat → AxiosReqConfig → TransportResult)
    (endpoint method : String) (sp : Option (List (String × ParamValue)))
    (service : String) (config : AxiosReqConfig) (st : TokenState) (sc : ServiceConfig)
    (hAuth : cfg.enableAuth = false) (hg : jsGet cfg.services service = some sc)
    (e : AxiosErr) (he : ∀ n c, transport n c = TransportResult.err e) :
    (request cfg transport endpoint method sp service config st).1 =
      Outcome.err (ErrVal.raw e) ∧
    (request cfg transport endpoint method sp service config st).2.2.sent.length = 1 ∧
    (∀ transport2 : Nat → AxiosReqConfig → TransportResult,
      (request cfg transport2 endpoint method sp service config st).2.2.signOutCalls = 0 ∧
      (request cfg transport2 endpoint method sp service config st).2.2.onRequestCalls = 0 ∧
      (request cfg transport2 endpoint method sp service config st).2.2.onResponseCalls = 0 ∧
      (request cfg transport2 endpoint method sp service config st).2.2.onRequestErrorCalls = 0 ∧
      (request cfg transport2 endpoint method sp service config st).2.2.providerCalls = 0) := by
  have hok := getServiceConfig_noGlobalAuth cfg st service config sc hg hAuth
  refine ⟨?_, ?_, ?_⟩
  · simp [request, hok, executeRequest, hAuth, dispatchPlain, he, Effects.empty]
  · simp [request, hok, executeRequest, hAuth, dispatchPlain, he, Effects.empty]
  · intro transport2
    refine ⟨?_, ?_, ?_, ?_, ?_⟩ <;>
      simp [request, hok, executeRequest, hAuth, dispatchPlain_eff, Effects.empty]

/-- C4 (witness): with auth disabled, an always-500 transport's error reaches
the caller raw after a single attempt and no hook ever runs. -/
theorem c4_witness :
    sampleCfgNoAuth.enableAuth = false ∧
    ((request sampleCfgNoAuth t500 "/x" "GET" none "private" conf0 ⟨none⟩).1 =
        Outcome.err (ErrVal.raw err500) ∧
      (request sampleCfgNoAuth t500 "/x" "GET" none "private" conf0 ⟨none⟩).2.2.sent.length = 1 ∧
      (∀ transport2 : Nat → AxiosReqConfig → TransportResult,
        (request sampleCfgNoAuth transport2 "/x" "GET" none "private" conf0 ⟨none⟩).2.2.signOutCalls = 0 ∧
        (request sampleCfgNoAuth transport2 "/x" "GET" none "private" conf0 ⟨none⟩).2.2.onRequestCalls = 0 ∧
        (request sampleCfgNoAuth transport2 "/x" "GET" none "private" conf0 ⟨none⟩).2.2.onResponseCalls = 0 ∧
        (request sampleCfgNoAuth transport2 "/x" "GET" none "private" conf0 ⟨none⟩).2.2.onRequestErrorCalls = 0 ∧
        (request sampleCfgNoAuth transport2 "/x" "GET" none "private" conf0 ⟨none⟩).2.2.providerCalls = 0)) :=
  ⟨rfl, c4_no_interceptors sampleCfgNoAuth t500 "/x" "GET" none "private" conf0 ⟨none⟩
    ⟨"https://api.example.com", some true⟩ rfl (by decide) err500 (fun _ _ => rfl)⟩

/-! ## Dispatch-step characterizations and retry induction -/

theorem dispatchStep_spec (cfg : ApiModel) (transport : Nat → AxiosReqConfig → TransportResult)
    (config : AxiosReqConfig) (st : TokenState) (eff : Effects) (retryCount : Nat) :
    (∃ r, dispatchStep cfg transport config st eff retryCount = StepResult.done r ∧
        r.2.2.sent.length = eff.sent.length + 1 ∧
        r.2.2.onRequestErrorCalls = eff.onRequestErrorCalls + normCount r.1) ∨
    (∃ e c st1 eff2, dispatchStep cfg transport config st eff retryCount
        = StepResult.retry e c st1 eff2 ∧
        eff2.sent.length = eff.sent.length + 1 ∧
        eff2.onRequestErrorCalls = eff.onRequestErrorCalls ∧
        retryCount < cfg.maxRetries) := by
  simp only [dispatchStep]
  split
  · exact Or.inl ⟨_, rfl, by simp, by simp [normCount]⟩
  · rename_i e heq
    by_cases h1 : e.hasConfig = false
    · rw [if_pos h1]
      exact Or.inl ⟨_, rfl, by simp, by simp [normCount]⟩
    · rw [if_neg h1]
      by_cases h2 : e.status = some 401
      · rw [if_pos h2]
        exact Or.inl ⟨_, rfl, by simp, by simp [normCount, AuthenticationError]⟩
      · rw [if_neg h2]
        by_cases h3 : statusIs5xx e.status = true ∧ retryCount < cfg.maxRetries
        · rw [if_pos h3]
          exact Or.inr ⟨_, _, _, _, rfl, by simp, by simp, h3.2⟩
        · rw [if_neg h3]
          exact Or.inl ⟨_, rfl, by simp [terminalNormalize],
            by simp [terminalNormalize, normCount, createApiError]⟩

theorem dispatchStep_spec5xx (cfg : ApiModel) (transport : Nat → AxiosReqConfig → TransportResult)
    (config : AxiosReqConfig) (st : TokenState) (eff : Effects) (retryCount : Nat)
    (hT : ∀ n c, isServerErrB (transport n c) = true) :
    (retryCount < cfg.maxRetries →
      ∃ e c st1 eff2, dispatchStep cfg transport config st eff retryCount
          = StepResult.retry e c st1 eff2 ∧ eff2.sent.length = eff.sent.length + 1) ∧
    (¬ retryCount < cfg.maxRetries →
      ∃ r, dispatchStep cfg transport config st eff retryCount = StepResult.done r ∧
          r.2.2.sent.length = eff.sent.length + 1 ∧ isNormalized r.1) := by
  have h5 := hT eff.sent.length (requestInterceptor cfg st config).1
  simp only [dispatchStep]
  split
  · rename_i body heq
    rw [heq] at h5
    simp [isServerErrB] at h5
  · rename_i e heq
    rw [heq] at h5
    simp only [isServerErrB, Bool.and_eq_true] at h5
    obtain ⟨hcfg, h5xx⟩ := h5
    have h401 : ¬ e.status = some 401 := by
      intro hq
      rw [hq] at h5xx
      simp [statusIs5xx] at h5xx
    rw [if_neg (by simp [hcfg]), if_neg h401]
    constructor
    · intro hlt
      rw [if_pos ⟨h5xx, hlt⟩]
      exact ⟨_, _, _, _, rfl, by simp⟩
    · intro hge
      rw [if_neg (fun hand : _ ∧ _ => hge hand.2)]
      exact ⟨_, rfl, by simp [terminalNormalize], ⟨_, rfl, rfl⟩⟩

theorem dispatchAux_sent_le (cfg : ApiModel) (transport : Nat → AxiosReqConfig → TransportResult) :
    ∀ (fuel : Nat) (config : AxiosReqConfig) (st : TokenState) (eff : Effects) (retryCount : Nat),
      (dispatchAux cfg transport fuel config st eff retryCount).2.2.sent.length
        ≤ eff.sent.length + (cfg.maxRetries - retryCount) + 1 := by
  intro fuel
  induction fuel with
  | zero =>
    intro config st eff retryCount
    rcases dispatchStep_spec cfg transport config st eff retryCount with
      ⟨r, hst, hlen, _⟩ | ⟨e, c, st1, eff2, hst, hlen, _, hrc⟩
    · simp only [dispatchAux, hst]
      omega
    · simp only [dispatchAux, hst, terminalNormalize]
      omega
  | succ f ih =>
    intro config st eff retryCount
    rcases dispatchStep_spec cfg transport config st eff retryCount with
      ⟨r, hst, hlen, _⟩ | ⟨e, c, st1, eff2, hst, hlen, _, hrc⟩
    · simp only [dispatchAux, hst]
      omega
    · simp only [dispatchAux, hst]
      have hih := ih c st1 eff2 (retryCount + 1)
      omega

theorem dispatchAux_all5xx (cfg : ApiModel) (transport : Nat → AxiosReqConfig → TransportResult)
    (hT : ∀ n c, isServerErrB (transport n c) = true) :
    ∀ (fuel : Nat) (config : AxiosReqConfig) (st : TokenState) (eff : Effects) (retryCount : Nat),
      cfg.maxRetries ≤ retryCount + fuel →
      ((dispatchAux cfg transport fuel config st eff retryCount).2.2.sent.length
          = eff.sent.length + (cfg.maxRetries - retryCount) + 1) ∧
      isNormalized (dispatchAux cfg transport fuel config st eff retryCount).1 := by
  intro fuel
  induction fuel with
  | zero =>
    intro config st eff retryCount hle
    obtain ⟨r, hst, hlen, hnorm⟩ :=
      (dispatchStep_spec5xx cfg transport config st eff retryCount hT).2 (by omega)
    simp only [dispatchAux, hst]
    exact ⟨by omega, hnorm⟩
  | succ f ih =>
    intro config st eff retryCount hle
    by_cases hrc : retryCount < cfg.maxRetries
    · obtain ⟨e, c, st1, eff2, hst, hlen⟩ :=
        (dispatchStep_spec5xx cfg transport config st eff retryCount hT).1 hrc
      simp only [dispatchAux, hst]
      obtain ⟨hlen2, hnorm2⟩ := ih c st1 eff2 (retryCount + 1) (by omega)
      exact ⟨by omega, hnorm2⟩
    · obtain ⟨r, hst, hlen, hnorm⟩ :=
        (dispatchStep_spec5xx cfg transport config st eff retryCount hT).2 hrc
      simp only [dispatchAux, hst]
      exact ⟨by omega, hnorm⟩

theorem dispatchAux_onReqErr (cfg : ApiModel) (transport : Nat → AxiosReqConfig → TransportResult) :
    ∀ (fuel : Nat) (config : AxiosReqConfig) (st : TokenState) (eff : Effects) (retryCount : Nat),
      (dispatchAux cfg transport fuel config st eff retryCount).2.2.onRequestErrorCalls
        = eff.onRequestErrorCalls
          + normCount (dispatchAux cfg transport fuel config st eff retryCount).1 := by
  intro fuel
  induction fuel with
  | zero =>
    intro config st eff retryCount
    rcases dispatchStep_spec cfg transport config st eff retryCount with
      ⟨r, hst, _, hoe⟩ | ⟨e, c, st1, eff2, hst, _, hoe, hrc⟩
    · simp only [dispatchAux, hst]
      exact hoe
    · simp only [dispatchAux, hst, terminalNormalize, normCount, createApiError]
      simp [hoe]
  | succ f ih =>
    intro config st eff retryCount
    rcases dispatchStep_spec cfg transport config st eff retryCount with
      ⟨r, hst, _, hoe⟩ | ⟨e, c, st1, eff2, hst, _, hoe, hrc⟩
    · simp only [dispatchAux, hst]
      exact hoe
    · simp only [dispatchAux, hst]
      have hih := ih c st1 eff2 (retryCount + 1)
      omega

theorem dispatchPlain_normCount (transport : Nat → AxiosReqConfig → TransportResult)
    (config : AxiosReqConfig) (eff : Effects) :
    normCount (dispatchPlain transport config eff).1 = 0 := by
  simp only [dispatchPlain]
  cases transport eff.sent.length config
  · rfl
  · rfl

/-! ## Claim C1: bounded 5xx retry with normalization -/

/-- C1: with global auth enabled (interceptors installed) and a resolvable
service, a transport failing with a config-carrying 5xx on every attempt is
invoked exactly `maxRetries + 1` times and the caller receives a normalized
generic `ApiError` (not the raw transport error); moreover, for *any*
transport behaviour the transport is invoked at most `maxRetries + 1` times,
i.e. no request is retried more than `maxRetries` times. -/
theorem c1_retry_bound (cfg : ApiModel) (transport : Nat → AxiosReqConfig → TransportResult)
    (endpoint method : String) (sp : Option (List (String × ParamValue)))
    (service : String) (config : AxiosReqConfig) (st : TokenState) (sc : ServiceConfig)
    (hAuth : cfg.enableAuth = true) (hg : jsGet cfg.services service = some sc)
    (hT : ∀ n c, isServerErrB (transport n c) = true) :
    (request cfg transport endpoint method sp service config st).2.2.sent.length
        = cfg.maxRetries + 1 ∧
    isNormalized (request cfg transport endpoint method sp service config st).1 ∧
    (∀ transport2 : Nat → AxiosReqConfig → TransportResult,
      (request cfg transport2 endpoint method sp service config st).2.2.sent.length
        ≤ cfg.maxRetries + 1) := by
  obtain ⟨c1, st1, b, hok⟩ := getServiceConfig_resolves cfg st service config sc hg
  refine ⟨?_, ?_, ?_⟩
  · have h := dispatchAux_all5xx cfg transport hT (cfg.maxRetries + 1)
      ({ c1 with url := some (buildUrl endpoint sp), method := some method }) st1
      ({ Effects.empty with providerCalls := if b then 1 else 0 }) 0 (by omega)
    simp only [request, hok, executeRequest, hAuth, if_true]
    rw [h.1]
    simp [Effects.empty]
  · have h := dispatchAux_all5xx cfg transport hT (cfg.maxRetries + 1)
      ({ c1 with url := some (buildUrl endpoint sp), method := some method }) st1
      ({ Effects.empty with providerCalls := if b then 1 else 0 }) 0 (by omega)
    simp only [request, hok, executeRequest, hAuth, if_true]
    exact h.2
  · intro transport2
    have h := dispatchAux_sent_le cfg transport2 (cfg.maxRetries + 1)
      ({ c1 with url := some (buildUrl endpoint sp), method := some method }) st1
      ({ Effects.empty with providerCalls := if b then 1 else 0 }) 0
    simp only [request, hok, executeRequest, hAuth, if_true]
    refine le_trans h ?_
    simp [Effects.empty]

/-- C1 (witness): on the sample configuration (`maxRetries = 2`) with an
always-500 transport, the transport runs exactly 3 times, the outcome is a
normalized `ApiError`, and no transport behaviour exceeds 3 attempts. -/
theorem c1_witness :
    sampleCfg.enableAuth = true ∧
    ((request sampleCfg t500 "/x" "GET" none "private" conf0 ⟨none⟩).2.2.sent.length
        = sampleCfg.maxRetries + 1 ∧
      isNormalized (request sampleCfg t500 "/x" "GET" none "private" conf0 ⟨none⟩).1 ∧
      (∀ transport2 : Nat → AxiosReqConfig → TransportResult,
        (request sampleCfg transport2 "/x" "GET" none "private" conf0 ⟨none⟩).2.2.sent.length
          ≤ sampleCfg.maxRetries + 1)) :=
  ⟨rfl, c1_retry_bound sampleCfg t500 "/x" "GET" none "private" conf0 ⟨none⟩
    ⟨"https://api.example.com", some true⟩ rfl (by decide) (fun _ _ => rfl)⟩

/-! ## Claim C6: onRequestError invocation discipline -/

/-- C6 (counterexample): a 401 response is a terminal failure — the caller
receives the `AuthenticationError` — yet `onRequestError` is never invoked,
refuting "invoked exactly once per terminal failure". -/
theorem c6_counterexample :
    (request sampleCfg t401 "/q" "GET" none "private" conf0 ⟨none⟩).1 =
      Outcome.err (ErrVal.api (AuthenticationError unauthorizedMessage)) ∧
    (request sampleCfg t401 "/q" "GET" none "private" conf0 ⟨none⟩).2.2.onRequestErrorCalls
      = 0 := by
  exact ⟨rfl, rfl⟩

/-- C6 (amended): `onRequestError` is invoked exactly once when and only when
the request's terminal outcome is a normalized generic `ApiError`
(`normCount` is 1 on such outcomes and 0 on success, on raw propagation and
on `AuthenticationError`), and it is never invoked on the service-not-found
early failure. -/
theorem c6_amended (cfg : ApiModel) (transport : Nat → AxiosReqConfig → TransportResult)
    (endpoint method : String) (sp : Option (List (String × ParamValue)))
    (service : String) (config : AxiosReqConfig) (st : TokenState) :
    (jsGet cfg.services service = none →
      (request cfg transport endpoint method sp service config st).2.2.onRequestErrorCalls
        = 0) ∧
    (∀ sc, jsGet cfg.services service = some sc →
      (request cfg transport endpoint method sp service config st).2.2.onRequestErrorCalls
        = normCount (request cfg transport endpoint method sp service config st).1) := by
  constructor
  · intro h
    simp [request, getServiceConfig, h, Effects.empty]
  · intro sc hg
    cases hA : cfg.enableAuth with
    | false =>
      have hok := getServiceConfig_noGlobalAuth cfg st service config sc hg hA
      simp [request, hok, executeRequest, hA, dispatchPlain_eff, dispatchPlain_normCount,
        Effects.empty]
    | true =>
      obtain ⟨c1, st1, b, hok⟩ := getServiceConfig_resolves cfg st service config sc hg
      have h := dispatchAux_onReqErr cfg transport (cfg.maxRetries + 1)
        ({ c1 with url := some (buildUrl endpoint sp), method := some method }) st1
        ({ Effects.empty with providerCalls := if b then 1 else 0 }) 0
      simp only [request, hok, executeRequest, hA, if_true]
      rw [h]
      simp [Effects.empty]

/-- C6 (witness): the amended theorem at the sample configuration with an
always-500 transport — the terminal normalized failure accounts for exactly
one `onRequestError` invocation. -/
theorem c6_witness :
    jsGet sampleCfg.services "private" = some ⟨"https://api.example.com", some true⟩ ∧
    (request sampleCfg t500 "/q" "GET" none "private" conf0 ⟨none⟩).2.2.onRequestErrorCalls
      = normCount (request sampleCfg t500 "/q" "GET" none "private" conf0 ⟨none⟩).1 :=
  ⟨by decide, (c6_amended sampleCfg t500 "/q" "GET" none "private" conf0 ⟨none⟩).2
    ⟨"https://api.example.com", some true⟩ (by decide)⟩

/-! ## Claim C3: Authorization header attachment -/

theorem requestInterceptor_headers (cfg : ApiModel) (st : TokenState) (config : AxiosReqConfig) :
    (requestInterceptor cfg st config).1.baseURL = config.baseURL ∧
    ((requestInterceptor cfg st config).1.headers = config.headers ∨
      (cfg.enableAuth = true ∧ urlAuthOf cfg config.baseURL = true ∧
        ∃ t, t ≠ "" ∧ (requestInterceptor cfg st config).1.headers
          = jsSet config.headers "Authorization" ("Bearer " ++ t))) := by
  simp only [requestInterceptor]
  split
  · rename_i hb
    exact ⟨rfl, Or.inl rfl⟩
  · rename_i url hb
    split
    · rename_i hsvc
      exact ⟨rfl, Or.inl rfl⟩
    · rename_i sc hsvc
      by_cases ha : optTruthy sc.enableAuth = true
      · rw [if_pos ha]
        cases htok : (getCurrentToken cfg st).1 with
        | none => exact ⟨rfl, Or.inl rfl⟩
        | some t =>
          obtain ⟨hne, hA⟩ := getCurrentToken_some cfg st t htok
          refine ⟨rfl, Or.inr ⟨hA, ?_, t, hne, rfl⟩⟩
          simp [urlAuthOf, hb, hsvc, ha]
      · rw [if_neg ha]
        exact ⟨rfl, Or.inl rfl⟩

theorem requestInterceptor_authHeaderOK (cfg : ApiModel) (st : TokenState)
    (config : AxiosReqConfig) (b : Bool) (hc : authHeaderOK cfg b config) :
    authHeaderOK cfg b (requestInterceptor cfg st config).1 ∧
    (requestInterceptor cfg st config).1.baseURL = config.baseURL := by
  obtain ⟨hbase, hhead⟩ := requestInterceptor_headers cfg st config
  refine ⟨?_, hbase⟩
  rcases hhead with hsame | ⟨hA, hurl, t, ht, hset⟩
  · intro v hv
    rw [hsame] at hv
    obtain ⟨h1, h2, h3⟩ := hc v hv
    refine ⟨h1, h2, ?_⟩
    rw [hbase]
    exact h3
  · intro v hv
    rw [hset, jsGet_jsSet_self] at hv
    cases hv
    refine ⟨hA, ⟨t, ht, rfl⟩, Or.inr ?_⟩
    rw [hbase]
    exact hurl

theorem dispatchStep_sent (cfg : ApiModel) (transport : Nat → AxiosReqConfig → TransportResult)
    (config : AxiosReqConfig) (st : TokenState) (eff : Effects) (retryCount : Nat) :
    (∃ r, dispatchStep cfg transport config st eff retryCount = StepResult.done r ∧
        r.2.2.sent = eff.sent ++ [(requestInterceptor cfg st config).1]) ∨
    (∃ e st1 eff2, dispatchStep cfg transport config st eff retryCount
        = StepResult.retry e (requestInterceptor cfg st config).1 st1 eff2 ∧
        eff2.sent = eff.sent ++ [(requestInterceptor cfg st config).1]) := by
  simp only [dispatchStep]
  split
  · exact Or.inl ⟨_, rfl, by simp⟩
  · rename_i e heq
    by_cases h1 : e.hasConfig = false
    · rw [if_pos h1]
      exact Or.inl ⟨_, rfl, by simp⟩
    · rw [if_neg h1]
      by_cases h2 : e.status = some 401
      · rw [if_pos h2]
        exact Or.inl ⟨_, rfl, by simp⟩
      · rw [if_neg h2]
        by_cases h3 : statusIs5xx e.status = true ∧ retryCount < cfg.maxRetries
        · rw [if_pos h3]
          exact Or.inr ⟨_, _, _, rfl, by simp⟩
        · rw [if_neg h3]
          exact Or.inl ⟨_, rfl, by simp [terminalNormalize]⟩

theorem dispatchAux_headerInv (cfg : ApiModel) (transport : Nat → AxiosReqConfig → TransportResult)
    (b : Bool) :
    ∀ (fuel : Nat) (config : AxiosReqConfig) (st : TokenState) (eff : Effects) (retryCount : Nat),
      authHeaderOK cfg b config →
      (∀ c ∈ eff.sent, authHeaderOK cfg b c ∧ c.baseURL = config.baseURL) →
      ∀ c ∈ (dispatchAux cfg transport fuel config st eff retryCount).2.2.sent,
        authHeaderOK cfg b c ∧ c.baseURL = config.baseURL := by
  intro fuel
  induction fuel with
  | zero =>
    intro config st eff retryCount hcfg hprev
    obtain ⟨hok, hbase⟩ := requestInterceptor_authHeaderOK cfg st config b hcfg
    rcases dispatchStep_sent cfg transport config st eff retryCount with
      ⟨r, hst, hsent⟩ | ⟨e, st1, eff2, hst, hsent⟩
    · simp only [dispatchAux, hst]
      intro c hc
      rw [hsent] at hc
      rcases List.mem_append.mp hc with hin | hin
      · exact hprev c hin
      · rw [List.mem_singleton.mp hin]
        exact ⟨hok, hbase⟩
    · simp only [dispatchAux, hst, terminalNormalize]
      intro c hc
      simp only [hsent] at hc
      rcases List.mem_append.mp hc with hin | hin
      · exact hprev c hin
      · rw [List.mem_singleton.mp hin]
        exact ⟨hok, hbase⟩
  | succ f ih =>
    intro config st eff retryCount hcfg hprev
    obtain ⟨hok, hbase⟩ := requestInterceptor_authHeaderOK cfg st config b hcfg
    rcases dispatchStep_sent cfg transport config st eff retryCount with
      ⟨r, hst, hsent⟩ | ⟨e, st1, eff2, hst, hsent⟩
    · simp only [dispatchAux, hst]
      intro c hc
      rw [hsent] at hc
      rcases List.mem_append.mp hc with hin | hin
      · exact hprev c hin
      · rw [List.mem_singleton.mp hin]
        exact ⟨hok, hbase⟩
    · simp only [dispatchAux, hst]
      have hprev2 : ∀ c ∈ eff2.sent,
          authHeaderOK cfg b c ∧ c.baseURL = (requestInterceptor cfg st config).1.baseURL := by
        intro c hc
        rw [hsent] at hc
        rcases List.mem_append.mp hc with hin | hin
        · obtain ⟨h1, h2⟩ := hprev c hin
          exact ⟨h1, by rw [h2, hbase]⟩
        · rw [List.mem_singleton.mp hin]
          exact ⟨hok, rfl⟩
      intro c hc
      obtain ⟨h1, h2⟩ := ih (requestInterceptor cfg st config).1 st1 eff2 (retryCount + 1)
        hok hprev2 c hc
      exact ⟨h1, h2.trans hbase⟩

theorem getServiceConfig_spec (cfg : ApiModel) (st : TokenState) (service : String)
    (config : AxiosReqConfig) (sc : ServiceConfig)
    (hg : jsGet cfg.services service = some sc) :
    ∃ c1 st1 b, getServiceConfig cfg st service config = Except.ok (c1, st1, b) ∧
      c1.baseURL = some sc.url ∧ c1.url = config.url ∧ c1.method = config.method ∧
      (c1.headers = config.headers ∨
        (optTruthy sc.enableAuth = true ∧ cfg.enableAuth = true ∧
          ∃ t, t ≠ "" ∧ c1.headers = jsSet config.headers "Authorization" ("Bearer " ++ t))) := by
  simp only [getServiceConfig, hg]
  by_cases hc3 : (optTruthy sc.enableAuth && cfg.enableAuth) = true
  · rw [if_pos hc3]
    cases htok : (getCurrentToken cfg st).1 with
    | none => exact ⟨_, _, _, rfl, rfl, rfl, rfl, Or.inl rfl⟩
    | some t =>
      obtain ⟨hne, _⟩ := getCurrentToken_some cfg st t htok
      obtain ⟨ha1, ha2⟩ : optTruthy sc.enableAuth = true ∧ cfg.enableAuth = true := by
        simpa using hc3
      exact ⟨_, _, _, rfl, rfl, rfl, rfl, Or.inr ⟨ha1, ha2, t, hne, rfl⟩⟩
  · rw [if_neg hc3]
    exact ⟨_, _, _, rfl, rfl, rfl, rfl, Or.inl rfl⟩

/-- C3 (counterexample): in a configuration where the overridden `public`
service (auth on) shares its URL with the custom service `x` (auth off), a
request to `x` with a cached token goes out with `Authorization: Bearer t`
attached by the URL-based interceptor hook — even though the service resolved
by name has `enableAuth = false` and global plus service conditions of the
claim are not met. -/
theorem c3_counterexample :
    jsGet aliasedCfg.services "x" = some ⟨"https://a.example.com", some false⟩ ∧
    ((request aliasedCfg tOk "/e" "GET" none "x" conf0 ⟨some "t"⟩).2.2.sent.map
      (fun c => jsGet c.headers "Authorization")) = [some "Bearer t"] := by
  exact ⟨rfl, rfl⟩

/-- C3 (amended): an Authorization header goes out only when global auth is
enabled, a nonempty token is available, and auth is enabled either by the
service resolved by name or by the first registry service matching the
request's base URL (the URL-based interceptor hook); when attached it is
exactly `Bearer <token>` for a nonempty token; and for a service whose own
flag is off and whose URL's first-match service is also off, no Authorization
header is ever attached (assuming the caller supplied none). -/
theorem c3_amended (cfg : ApiModel) (transport : Nat → AxiosReqConfig → TransportResult)
    (endpoint method : String) (sp : Option (List (String × ParamValue)))
    (service : String) (conf : AxiosReqConfig) (st : TokenState)
    (h0 : jsGet conf.headers "Authorization" = none) :
    ∀ c ∈ (request cfg transport endpoint method sp service conf st).2.2.sent,
      (∀ v, jsGet c.headers "Authorization" = some v →
        cfg.enableAuth = true ∧ (∃ t, t ≠ "" ∧ v = "Bearer " ++ t) ∧
        (nameAuthEnabled cfg service = true ∨ urlAuthEnabled cfg service = true)) ∧
      ((nameAuthEnabled cfg service = false ∧ urlAuthEnabled cfg service = false) →
        jsGet c.headers "Authorization" = none) := by
  cases hg : jsGet cfg.services service with
  | none =>
    simp [request, getServiceConfig, hg, Effects.empty]
  | some sc =>
    obtain ⟨c1, st1, b, hok, hbase1, hurl1, hmeth1, hhead1⟩ :=
      getServiceConfig_spec cfg st service conf sc hg
    have hname : nameAuthEnabled cfg service = optTruthy sc.enableAuth := by
      simp [nameAuthEnabled, hg]
    have hurlenab : urlAuthEnabled cfg service = urlAuthOf cfg (some sc.url) := by
      simp [urlAuthEnabled, hg]
    have hC1ok : authHeaderOK cfg (nameAuthEnabled cfg service) c1 := by
      rcases hhead1 with hsame | ⟨hsvcauth, hA, t, ht, hset⟩
      · intro v hv
        rw [hsame, h0] at hv
        exact absurd hv (by simp)
      · intro v hv
        rw [hset, jsGet_jsSet_self] at hv
        cases hv
        exact ⟨hA, ⟨t, ht, rfl⟩, Or.inl (by rw [hname]; exact hsvcauth)⟩
    have hclaim : ∀ c : AxiosReqConfig, authHeaderOK cfg (nameAuthEnabled cfg service) c →
        c.baseURL = some sc.url →
        (∀ v, jsGet c.headers "Authorization" = some v →
          cfg.enableAuth = true ∧ (∃ t, t ≠ "" ∧ v = "Bearer " ++ t) ∧
          (nameAuthEnabled cfg service = true ∨ urlAuthEnabled cfg service = true)) ∧
        ((nameAuthEnabled cfg service = false ∧ urlAuthEnabled cfg service = false) →
          jsGet c.headers "Authorization" = none) := by
      intro c hc hcb
      constructor
      · intro v hv
        obtain ⟨h1, h2, h3⟩ := hc v hv
        refine ⟨h1, h2, ?_⟩
        rcases h3 with h3 | h3
        · exact Or.inl h3
        · rw [hcb] at h3
          rw [hurlenab]
          exact Or.inr h3
      · intro ⟨hn, hu⟩
        cases hv : jsGet c.headers "Authorization" with
        | none => rfl
        | some v =>
          obtain ⟨_, _, h3⟩ := hc v hv
          rcases h3 with h3 | h3
          · rw [hn] at h3
            exact absurd h3 (by simp)
          · rw [hcb] at h3
            rw [hurlenab] at hu
            rw [hu] at h3
            exact absurd h3 (by simp)
    by_cases hA : cfg.enableAuth = true
    · intro c hc
      simp only [request, hok, executeRequest, hA, if_true] at hc
      have hRCok : authHeaderOK cfg (nameAuthEnabled cfg service)
          ({ c1 with url := some (buildUrl endpoint sp), method := some method }) := hC1ok
      have hmem := dispatchAux_headerInv cfg transport (nameAuthEnabled cfg service)
        (cfg.maxRetries + 1)
        ({ c1 with url := some (buildUrl endpoint sp), method := some method }) st1
        ({ Effects.empty with providerCalls := if b then 1 else 0 }) 0 hRCok
        (by intro c2 hc2; simp [Effects.empty] at hc2) c hc
      exact hclaim c hmem.1 (hmem.2.trans hbase1)
    · have hA' : cfg.enableAuth = false := by
        cases h2 : cfg.enableAuth
        · rfl
        · exact absurd h2 hA
      intro c hc
      simp only [request, hok, executeRequest, hA', Bool.false_eq_true, if_false] at hc
      rw [dispatchPlain_eff] at hc
      simp only [Effects.empty, List.nil_append, List.mem_singleton] at hc
      rw [hc]
      have hok2 : authHeaderOK cfg (nameAuthEnabled cfg service)
          ({ c1 with url := some (buildUrl endpoint sp), method := some method }) := hC1ok
      exact hclaim _ hok2 hbase1

/-- C3 (witness): the amended theorem instantiated on the aliased
configuration: every outgoing config of the counterexample request satisfies
the amended attachment discipline (the URL-resolved service grants auth). -/
theorem c3_witness :
    jsGet conf0.headers "Authorization" = none ∧
    ∀ c ∈ (request aliasedCfg tOk "/e" "GET" none "x" conf0 ⟨some "t"⟩).2.2.sent,
      (∀ v, jsGet c.headers "Authorization" = some v →
        aliasedCfg.enableAuth = true ∧ (∃ t, t ≠ "" ∧ v = "Bearer " ++ t) ∧
        (nameAuthEnabled aliasedCfg "x" = true ∨ urlAuthEnabled aliasedCfg "x" = true)) ∧
      ((nameAuthEnabled aliasedCfg "x" = false ∧ urlAuthEnabled aliasedCfg "x" = false) →
        jsGet c.headers "Authorization" = none) :=
  ⟨rfl, c3_amended aliasedCfg tOk "/e" "GET" none "x" conf0 ⟨some "t"⟩ rfl⟩

end AkApiHttp
